import Mathlib

/-!
Verification of the signal-composition pipeline in `src/app13.py`.

The script pulls 5-minute OHLCV bars per instrument (yfinance), attaches
indicator columns (ta library), concatenates all instruments, filters by
time-of-day, computes boolean entry/exit flags per row with vectorized
pandas comparisons, computes a per-instrument entry duration via a
groupby transform, and displays two filtered views.

Embedding choices:
* A row of the composed table is `Row`: instrument id, timestamp
  (POSIX seconds, `Nat`), and the indicator columns as `Option ℚ`
  (`none` = pandas `NaN`, the leading insufficient-history stretch).
* Pandas comparison semantics: any comparison involving `NaN` is
  `False`; `Series.between` is inclusive on both ends by default.
  These are captured by `oLe`, `oGe`, `oBetween`, `oAbsDiffLt`,
  `oLt2`, `oGt2`, which return `false` whenever an operand is `none`.
* The time filter (`df[df["Time"] >= datetime.time(10, 0)]`, lines
  103-104) compares the time-of-day component only, modelled as
  `datetime % 86400` seconds with the 10:00 cutoff at `36000`.
* `Entry_Time`/`Duration_Min` (lines 144-148): `Datetime.where(entry)`
  is `entryTime`; the groupby("Stock") transform taking
  `(x - x.min()).dt.total_seconds() / 60` is `Duration_Min`, where
  `x.min()` ranges over the non-missing entry times of the row's stock
  in the whole composed table (`minEntry`).
* The main fetch loop (lines 87-98) is `runBatch`/`aggregate`: a fetch
  returning `None` (empty retrieval) is skipped, the rest concatenated.
* The MultiIndex flattening of the fetch result (lines 42-43,
  `df.columns = df.columns.get_level_values(0)`) is `flattenCols` over
  an association-list model of a pandas frame's columns.
-/

namespace App13

/-- One row of the composed table: one bar of one instrument together
with its indicator columns.  Indicator and price columns are `Option ℚ`
since the ta library leaves the first `window − 1` values missing. -/
structure Row where
  stock : String
  datetime : Nat
  close : Option ℚ
  bb60 : Option ℚ
  bb105 : Option ℚ
  bb150 : Option ℚ
  rsi20 : Option ℚ
  willr28 : Option ℚ
  pdi6 : Option ℚ
  mdi6 : Option ℚ
  pdi20 : Option ℚ
  mdi20 : Option ℚ
  ma8 : Option ℚ
deriving DecidableEq, Repr

/-- Pandas `series <= c`: `NaN` compares `False`. -/
def oLe (a : Option ℚ) (c : ℚ) : Bool :=
  match a with
  | some x => decide (x ≤ c)
  | none => false

/-- Pandas `series >= c`: `NaN` compares `False`. -/
def oGe (a : Option ℚ) (c : ℚ) : Bool :=
  match a with
  | some x => decide (c ≤ x)
  | none => false

/-- Pandas `series.between(lo, hi)` (inclusive both ends); `NaN` gives `False`. -/
def oBetween (a : Option ℚ) (lo hi : ℚ) : Bool :=
  match a with
  | some x => decide (lo ≤ x) && decide (x ≤ hi)
  | none => false

/-- Pandas `abs(a - b) < c`; any `NaN` operand gives `False`. -/
def oAbsDiffLt (a b : Option ℚ) (c : ℚ) : Bool :=
  match a, b with
  | some x, some y => decide (|x - y| < c)
  | _, _ => false

/-- Pandas `a < b` on two series; any `NaN` operand gives `False`. -/
def oLt2 (a b : Option ℚ) : Bool :=
  match a, b with
  | some x, some y => decide (x < y)
  | _, _ => false

/-- Pandas `a > b` on two series; any `NaN` operand gives `False`. -/
def oGt2 (a b : Option ℚ) : Bool :=
  match a, b with
  | some x, some y => decide (y < x)
  | _, _ => false

/-- `CALL_ENTRY` (src/app13.py lines 109-115). -/
def CALL_ENTRY (r : Row) : Bool :=
  oLe r.bb60 35 &&
  oBetween r.rsi20 65 100 &&
  oBetween r.willr28 (-20) 0 &&
  oGe r.pdi6 40 && oLe r.mdi6 12 &&
  oGe r.pdi20 35 && oLe r.mdi20 15

/-- `PUT_ENTRY` (src/app13.py lines 120-126). -/
def PUT_ENTRY (r : Row) : Bool :=
  oLe r.bb60 35 &&
  oBetween r.rsi20 1 40 &&
  oBetween r.willr28 (-100) (-80) &&
  oGe r.mdi6 35 && oLe r.pdi6 15 &&
  oGe r.mdi20 30 && oLe r.pdi20 15

/-- `CALL_EXIT` (src/app13.py lines 131-134). -/
def CALL_EXIT (r : Row) : Bool :=
  oAbsDiffLt r.pdi20 r.mdi20 10 || oLt2 r.close r.ma8

/-- `PUT_EXIT` (src/app13.py lines 136-139). -/
def PUT_EXIT (r : Row) : Bool :=
  oAbsDiffLt r.pdi20 r.mdi20 10 || oGt2 r.close r.ma8

/-- Seconds-of-day component of a POSIX timestamp (pandas `.dt.time`). -/
def timeOfDay (t : Nat) : Nat := t % 86400

/-- The 10:00 cutoff, `datetime.time(10, 0)`, as seconds of day. -/
def tenAM : Nat := 36000

/-- Time filter (src/app13.py lines 103-104): keep bars whose
time-of-day is 10:00:00 or later. -/
def timeFilter (df : List Row) : List Row :=
  df.filter (fun r => decide (tenAM ≤ timeOfDay r.datetime))

/-- `Entry_Time` (line 144): the bar's timestamp where an entry flag
holds, missing (`NaT`) elsewhere. -/
def entryTime (r : Row) : Option Nat :=
  if CALL_ENTRY r || PUT_ENTRY r then some r.datetime else none

/-- The non-missing entry times of one stock's group in the composed
table (the series the groupby("Stock") transform sees, minus `NaT`). -/
def entryTimes (df : List Row) (s : String) : List Nat :=
  (df.filter (fun r => r.stock = s)).filterMap entryTime

/-- `x.min()` inside the transform: minimum entry time of the group. -/
def minEntry (df : List Row) (s : String) : Option Nat :=
  (entryTimes df s).min?

/-- `Duration_Min` (lines 145-148): `(x - x.min()).dt.total_seconds() / 60`
per row; missing whenever the row's own `Entry_Time` is missing. -/
def Duration_Min (df : List Row) (r : Row) : Option ℚ :=
  match entryTime r, minEntry df r.stock with
  | some t, some m => some (((t : ℚ) - (m : ℚ)) / 60)
  | _, _ => none

/-- CALL-side active view (line 166): `df[df["CALL_ENTRY"] & ~df["CALL_EXIT"]]`
(the subsequent `sort_values` only reorders rows). -/
def call_df (df : List Row) : List Row :=
  df.filter (fun r => CALL_ENTRY r && !CALL_EXIT r)

/-- PUT-side active view (line 171). -/
def put_df (df : List Row) : List Row :=
  df.filter (fun r => PUT_ENTRY r && !PUT_EXIT r)

/-- A bar whose indicators sit exactly at every inclusive CALL_ENTRY
bound: BB60 = 35, RSI20 = 65, WILLR28 = −20, +DI6 = 40, −DI6 = 12,
+DI20 = 35, −DI20 = 15. -/
def callBoundaryRow : Row where
  stock := "X"
  datetime := 36000
  close := some 100
  bb60 := some 35
  bb105 := some 35
  bb150 := some 35
  rsi20 := some 65
  willr28 := some (-20)
  pdi6 := some 40
  mdi6 := some 12
  pdi20 := some 35
  mdi20 := some 15
  ma8 := some 90

/-- A bar with every indicator column missing (the first bars of a
series, before any trailing window is full). -/
def allMissingRow : Row where
  stock := "Y"
  datetime := 36000
  close := none
  bb60 := none
  bb105 := none
  bb150 := none
  rsi20 := none
  willr28 := none
  pdi6 := none
  mdi6 := none
  pdi20 := none
  mdi20 := none
  ma8 := none

/-- The boundary bar moved to an arbitrary timestamp. -/
def exRow (t : Nat) : Row := { callBoundaryRow with datetime := t }

/-- A concrete composed table: one instrument with entry bars at minute
offsets 0, 15 and 40 after 10:00 (POSIX seconds 36000, 36900, 38400). -/
def exDf : List Row := [exRow 36000, exRow 36900, exRow 38400]

/-- A bar that fires CALL_ENTRY and CALL_EXIT on the same bar
(Close = 100 < MA8 = 200 triggers the exit). -/
def callExitRow : Row := { callBoundaryRow with ma8 := some 200 }

/-- Claim C1: after the time filter, CALL_ENTRY is true iff all seven
inclusive comparisons hold on the bar's own indicators; a bar exactly at
every inclusive bound (BB60 = 35) has CALL_ENTRY = true, and the same
bar with BB60 = 35.0001 has CALL_ENTRY = false. -/
theorem C1_call_entry_iff :
    (∀ (s : String) (t : Nat) (c b105 b150 ma : Option ℚ)
        (bb rsi wr p6 m6 p20 m20 : ℚ),
      CALL_ENTRY ⟨s, t, c, some bb, b105, b150, some rsi, some wr,
          some p6, some m6, some p20, some m20, ma⟩ = true ↔
        (bb ≤ 35 ∧ 65 ≤ rsi ∧ rsi ≤ 100 ∧ -20 ≤ wr ∧ wr ≤ 0 ∧
          40 ≤ p6 ∧ m6 ≤ 12 ∧ 35 ≤ p20 ∧ m20 ≤ 15))
  ∧ CALL_ENTRY callBoundaryRow = true
  ∧ CALL_ENTRY { callBoundaryRow with bb60 := some (350001 / 10000) } = false := by
  refine ⟨?_, by decide, ?_⟩
  · intro s t c b105 b150 ma bb rsi wr p6 m6 p20 m20
    simp [CALL_ENTRY, oLe, oGe, oBetween, and_assoc]
  · have h : decide ((350001 : ℚ) / 10000 ≤ 35) = false :=
      decide_eq_false (by norm_num)
    simp [CALL_ENTRY, callBoundaryRow, oLe, h]

/-- Claim C3: CALL_ENTRY and PUT_ENTRY are never both true on one bar
(their RSI20 ranges [65,100] and [1,40] are disjoint). -/
theorem C3_entries_mutually_exclusive (r : Row) :
    (CALL_ENTRY r && PUT_ENTRY r) = false := by
  cases hc : CALL_ENTRY r
  · simp
  · rw [Bool.true_and, Bool.eq_false_iff]
    intro hp
    cases h : r.rsi20 with
    | none => simp [CALL_ENTRY, oBetween, h] at hc
    | some x =>
      simp only [CALL_ENTRY, oBetween, oLe, oGe, h, Bool.and_eq_true,
        decide_eq_true_eq] at hc
      simp only [PUT_ENTRY, oBetween, oLe, oGe, h, Bool.and_eq_true,
        decide_eq_true_eq] at hp
      obtain ⟨⟨⟨⟨⟨⟨-, hc65, -⟩, -⟩, -⟩, -⟩, -⟩, -⟩ := hc
      obtain ⟨⟨⟨⟨⟨⟨-, -, hp40⟩, -⟩, -⟩, -⟩, -⟩, -⟩ := hp
      linarith

/-- Claim C4: a comparison whose operand is missing evaluates to false,
so a bar missing any indicator referenced by an entry rule has that
entry flag false; evaluation is total (never raises). -/
theorem C4_missing_evaluates_false :
    (∀ (c lo hi : ℚ), oLe none c = false ∧ oGe none c = false ∧
        oBetween none lo hi = false)
  ∧ (∀ r : Row,
      r.bb60 = none ∨ r.rsi20 = none ∨ r.willr28 = none ∨
        r.pdi6 = none ∨ r.mdi6 = none ∨ r.pdi20 = none ∨ r.mdi20 = none →
      CALL_ENTRY r = false ∧ PUT_ENTRY r = false) := by
  constructor
  · intro c lo hi
    exact ⟨rfl, rfl, rfl⟩
  · intro r h
    rcases h with h | h | h | h | h | h | h <;>
      exact ⟨by simp [CALL_ENTRY, oLe, oGe, oBetween, h],
             by simp [PUT_ENTRY, oLe, oGe, oBetween, h]⟩

/-- Witness for C4: the all-missing bar has both entry flags false. -/
theorem C4_witness :
    CALL_ENTRY allMissingRow = false ∧ PUT_ENTRY allMissingRow = false :=
  C4_missing_evaluates_false.2 allMissingRow (Or.inl rfl)

/-- Claim C5: the time filter keeps exactly the bars whose time-of-day
is 10:00:00 or later, independent of the date: on every day, a bar at
09:59:59 is excluded and a bar at exactly 10:00:00 is included. -/
theorem C5_time_filter :
    (∀ (df : List Row) (r : Row),
        r ∈ timeFilter df ↔ r ∈ df ∧ tenAM ≤ timeOfDay r.datetime)
  ∧ (∀ day : Nat,
      exRow (86400 * day + 35999) ∉ timeFilter [exRow (86400 * day + 35999)] ∧
        exRow (86400 * day + 36000) ∈ timeFilter [exRow (86400 * day + 36000)]) := by
  constructor
  · intro df r
    simp [timeFilter, List.mem_filter]
  · intro day
    constructor
    · simp [timeFilter, timeOfDay, tenAM, exRow, Nat.mul_add_mod]
    · simp [timeFilter, timeOfDay, tenAM, exRow, Nat.mul_add_mod]

/-- Claim C6: the CALL view holds exactly the bars with CALL_ENTRY true
and CALL_EXIT false (symmetrically for PUT); a bar with both CALL flags
true is excluded from the view yet stays in the composed table with
CALL_ENTRY = true. -/
theorem C6_active_views :
    (∀ (df : List Row) (r : Row),
        r ∈ call_df df ↔ r ∈ df ∧ CALL_ENTRY r = true ∧ CALL_EXIT r = false)
  ∧ (∀ (df : List Row) (r : Row),
        r ∈ put_df df ↔ r ∈ df ∧ PUT_ENTRY r = true ∧ PUT_EXIT r = false)
  ∧ (∀ (df : List Row) (r : Row), r ∈ df → CALL_ENTRY r = true →
        CALL_EXIT r = true → r ∉ call_df df ∧ r ∈ df ∧ CALL_ENTRY r = true) := by
  refine ⟨?_, ?_, ?_⟩
  · intro df r
    simp [call_df, List.mem_filter]
  · intro df r
    simp [put_df, List.mem_filter]
  · intro df r hmem hentry hexit
    refine ⟨?_, hmem, hentry⟩
    simp [call_df, List.mem_filter, hexit]

/-- Witness for C6: a bar firing entry and exit together is not in the
active CALL view built from the one-row table containing it. -/
theorem C6_witness :
    callExitRow ∉ call_df [callExitRow] ∧ callExitRow ∈ [callExitRow] ∧
      CALL_ENTRY callExitRow = true :=
  C6_active_views.2.2 [callExitRow] callExitRow (List.mem_singleton.mpr rfl)
    (by decide)
    (by simp [CALL_EXIT, callExitRow, callBoundaryRow, oAbsDiffLt, oLt2]
        norm_num)

/-- An entry bar of the composed table contributes its own timestamp to
its stock's entry-time group. -/
theorem mem_entryTimes_of_entry {df : List Row} {r : Row} (hr : r ∈ df)
    (hflag : (CALL_ENTRY r || PUT_ENTRY r) = true) :
    r.datetime ∈ entryTimes df r.stock := by
  unfold entryTimes
  rw [List.mem_filterMap]
  refine ⟨r, ?_, ?_⟩
  · rw [List.mem_filter]
    exact ⟨hr, by simp⟩
  · simp [entryTime, hflag]

/-- Claim C2: on every entry bar, Duration_Min is the elapsed minutes
between the bar's timestamp and the minimum (hence earliest) entry
timestamp of the same instrument in the composed table; bars with
neither entry flag have an undefined duration. -/
theorem C2_duration_from_first_entry :
    (∀ (df : List Row) (r : Row), r ∈ df →
      (CALL_ENTRY r || PUT_ENTRY r) = true →
      ∃ m : Nat,
        minEntry df r.stock = some m ∧
        m ∈ entryTimes df r.stock ∧
        (∀ t ∈ entryTimes df r.stock, m ≤ t) ∧
        Duration_Min df r = some (((r.datetime : ℚ) - (m : ℚ)) / 60))
  ∧ (∀ (df : List Row) (r : Row),
      (CALL_ENTRY r || PUT_ENTRY r) = false → Duration_Min df r = none) := by
  constructor
  · intro df r hr hflag
    have hmem : r.datetime ∈ entryTimes df r.stock :=
      mem_entryTimes_of_entry hr hflag
    cases hmin : minEntry df r.stock with
    | none =>
      rw [minEntry, List.min?_eq_none_iff] at hmin
      rw [hmin] at hmem
      exact absurd hmem (List.not_mem_nil _)
    | some m =>
      have hiff := List.min?_eq_some_iff'.mp hmin
      refine ⟨m, rfl, hiff.1, hiff.2, ?_⟩
      simp [Duration_Min, entryTime, hflag, hmin]
  · intro df r hflag
    simp [Duration_Min, entryTime, hflag]

/-- Witness for C2: entries at minute offsets 0, 15 and 40 yield
durations 0, 15 and 40, all measured from the first entry. -/
theorem C2_witness :
    Duration_Min exDf (exRow 36000) = some 0 ∧
    Duration_Min exDf (exRow 36900) = some 15 ∧
    Duration_Min exDf (exRow 38400) = some 40 := by
  have hm : minEntry exDf "X" = some 36000 := by decide
  refine ⟨?_, ?_, ?_⟩
  · obtain ⟨m, hmin, -, -, hdur⟩ :=
      C2_duration_from_first_entry.1 exDf (exRow 36000)
        (by decide) (by decide)
    have hmm : m = 36000 := Option.some.inj (hmin.symm.trans hm)
    rw [hdur, hmm]
    norm_num [exRow, callBoundaryRow]
  · obtain ⟨m, hmin, -, -, hdur⟩ :=
      C2_duration_from_first_entry.1 exDf (exRow 36900)
        (by decide) (by decide)
    have hmm : m = 36000 := Option.some.inj (hmin.symm.trans hm)
    rw [hdur, hmm]
    norm_num [exRow, callBoundaryRow]
  · obtain ⟨m, hmin, -, -, hdur⟩ :=
      C2_duration_from_first_entry.1 exDf (exRow 38400)
        (by decide) (by decide)
    have hmm : m = 36000 := Option.some.inj (hmin.symm.trans hm)
    rw [hdur, hmm]
    norm_num [exRow, callBoundaryRow]

/-- Claim C10: wherever Duration_Min is defined on a row of the table it
is non-negative, and on the instrument's earliest entry bar (the bar
whose timestamp is the group minimum) it is exactly 0. -/
theorem C10_duration_nonneg :
    (∀ (df : List Row) (r : Row) (d : ℚ), r ∈ df →
        Duration_Min df r = some d → 0 ≤ d)
  ∧ (∀ (df : List Row) (r : Row),
        (CALL_ENTRY r || PUT_ENTRY r) = true →
        minEntry df r.stock = some r.datetime →
        Duration_Min df r = some 0) := by
  constructor
  · intro df r d hr hd
    unfold Duration_Min at hd
    cases hflag : entryTime r with
    | none => rw [hflag] at hd; cases hd
    | some t =>
      cases hmin : minEntry df r.stock with
      | none => rw [hflag, hmin] at hd; cases hd
      | some m =>
        rw [hflag, hmin] at hd
        have ht : t = r.datetime := by
          unfold entryTime at hflag
          by_cases hb : (CALL_ENTRY r || PUT_ENTRY r) = true
          · rw [if_pos hb] at hflag
            exact (Option.some.inj hflag).symm
          · rw [if_neg hb] at hflag
            cases hflag
        have hbt : (CALL_ENTRY r || PUT_ENTRY r) = true := by
          unfold entryTime at hflag
          by_cases hb : (CALL_ENTRY r || PUT_ENTRY r) = true
          · exact hb
          · rw [if_neg hb] at hflag
            cases hflag
        have hmem : r.datetime ∈ entryTimes df r.stock :=
          mem_entryTimes_of_entry hr hbt
        have hle : m ≤ r.datetime :=
          (List.min?_eq_some_iff'.mp hmin).2
            r.datetime hmem
        have hd2 : d = ((t : ℚ) - (m : ℚ)) / 60 := (Option.some.inj hd).symm
        rw [hd2, ht]
        have hc : (m : ℚ) ≤ (r.datetime : ℚ) := by exact_mod_cast hle
        apply div_nonneg
        · linarith
        · norm_num
  · intro df r hflag hmin
    simp [Duration_Min, entryTime, hflag, hmin]

/-- Witness for C10: on the concrete table, the duration at offset 15 is
the non-negative 15, and the earliest entry bar has duration 0. -/
theorem C10_witness :
    Duration_Min exDf (exRow 36900) = some 15 ∧ (0 : ℚ) ≤ 15 ∧
      Duration_Min exDf (exRow 36000) = some 0 := by
  have hEntry : entryTime (exRow 36900) = some 36900 := by decide
  have hMin : minEntry exDf (exRow 36900).stock = some 36000 := by decide
  have h15 : Duration_Min exDf (exRow 36900) = some 15 := by
    simp only [Duration_Min, hEntry, hMin]
    norm_num
  refine ⟨h15, ?_, ?_⟩
  · exact C10_duration_nonneg.1 exDf (exRow 36900) 15 (by decide) h15
  · exact C10_duration_nonneg.2 exDf (exRow 36000) (by decide) (by decide)

/-- The main loop (src/app13.py lines 87-92): fetch each stock, keep
only the instruments whose fetch returned data (skip `None`). -/
def runBatch (fetch : String → Option (List Row)) (stocks : List String) :
    List (List Row) :=
  stocks.filterMap fetch

/-- The aggregate table (line 98): `pd.concat(frames)` over the frames
the loop kept. -/
def aggregate (fetch : String → Option (List Row)) (stocks : List String) :
    List Row :=
  (runBatch fetch stocks).flatten

/-- Claim C7: an empty or failed fetch for one instrument never aborts
the batch: that instrument contributes zero rows and the rest are kept,
so 5 instruments of which 2 return empty yield exactly the 3 successful
instruments' rows. -/
theorem C7_empty_fetch_tolerated :
    (∀ (fetch : String → Option (List Row)) (stocks : List String),
        aggregate fetch stocks =
          (stocks.map (fun s => (fetch s).getD [])).flatten)
  ∧ (∀ (fetch : String → Option (List Row)) (s1 s2 s3 s4 s5 : String)
        (f1 f3 f5 : List Row),
      fetch s1 = some f1 → fetch s2 = none → fetch s3 = some f3 →
        fetch s4 = none → fetch s5 = some f5 →
        aggregate fetch [s1, s2, s3, s4, s5] = f1 ++ f3 ++ f5) := by
  constructor
  · intro fetch stocks
    induction stocks with
    | nil => rfl
    | cons s ss ih =>
      cases h : fetch s with
      | none =>
        simp [aggregate, runBatch, List.filterMap_cons, h] at ih ⊢
        exact ih
      | some l =>
        simp [aggregate, runBatch, List.filterMap_cons, h] at ih ⊢
        exact ih
  · intro fetch s1 s2 s3 s4 s5 f1 f3 f5 h1 h2 h3 h4 h5
    simp [aggregate, runBatch, List.filterMap_cons, h1, h2, h3, h4, h5]

/-- A concrete batch of five instruments where "B" and "D" return no
data. -/
def exFetch : String → Option (List Row)
  | "A" => some [exRow 36000]
  | "C" => some [exRow 36900]
  | "E" => some [exRow 38400]
  | _ => none

/-- Witness for C7: the five-instrument batch with two empty fetches
aggregates exactly the three successful instruments' rows. -/
theorem C7_witness :
    aggregate exFetch ["A", "B", "C", "D", "E"] =
      [exRow 36000] ++ [exRow 36900] ++ [exRow 38400] :=
  C7_empty_fetch_tolerated.2 exFetch "A" "B" "C" "D" "E"
    [exRow 36000] [exRow 36900] [exRow 38400] rfl rfl rfl rfl rfl

/-- Columns of a single-level pandas frame: an ordered association of
field label to column data, as the indicator step consumes it. -/
structure SFrame where
  cols : List (String × List ℚ)
deriving DecidableEq, Repr

/-- Columns of a MultiIndex frame as yfinance can return it: each column
is keyed by (field label, instrument symbol). -/
structure MFrame where
  cols : List ((String × String) × List ℚ)
deriving DecidableEq, Repr

/-- Line 43, `df.columns = df.columns.get_level_values(0)`: keep the
level-0 label of every column. -/
def flattenCols (mf : MFrame) : SFrame :=
  ⟨mf.cols.map (fun p => (p.1.1, p.2))⟩

/-- A fetch result's column structure: already flat, or a MultiIndex. -/
inductive RawFrame where
  | single (sf : SFrame)
  | multi (mf : MFrame)

/-- Lines 42-43: flatten exactly when the columns are a MultiIndex. -/
def normalizeCols : RawFrame → SFrame
  | .single sf => sf
  | .multi mf => flattenCols mf

/-- A one-symbol MultiIndex frame equivalent to a flat frame: the same
field labels and data, with the symbol as the second level. -/
def attachLevel (sym : String) (sf : SFrame) : MFrame :=
  ⟨sf.cols.map (fun p => ((p.1, sym), p.2))⟩

/-- Column lookup by field label (`df["Open"]` and friends). -/
def getCol (sf : SFrame) (name : String) : Option (List ℚ) :=
  (sf.cols.find? (fun p => p.1 = name)).map Prod.snd

/-- Claim C8: a MultiIndex fetch result equivalent to a single-level one
is normalized to exactly that single-level frame, so every indicator
computed from the flattened frame equals the one computed from the
single-level baseline, and so does every column lookup. -/
theorem C8_flatten_multiindex :
    (∀ (sym : String) (sf : SFrame),
        normalizeCols (.multi (attachLevel sym sf)) =
          normalizeCols (.single sf))
  ∧ (∀ (sym : String) (sf : SFrame) (indicator : SFrame → List ℚ),
        indicator (normalizeCols (.multi (attachLevel sym sf))) =
          indicator sf)
  ∧ (∀ (sym : String) (sf : SFrame) (name : String),
        getCol (normalizeCols (.multi (attachLevel sym sf))) name =
          getCol sf name) := by
  have key : ∀ (sym : String) (sf : SFrame),
      flattenCols (attachLevel sym sf) = sf := by
    intro sym sf
    cases sf with
    | mk cols =>
      simp [flattenCols, attachLevel, List.map_map, Function.comp_def]
  refine ⟨?_, ?_, ?_⟩
  · intro sym sf
    simpa [normalizeCols] using key sym sf
  · intro sym sf indicator
    simp [normalizeCols, key sym sf]
  · intro sym sf name
    simp [normalizeCols, key sym sf]

/-- Modelled after the `st.cache_data` decorator on `fetch_data`
(src/app13.py line 28): a memo table keyed by the decorated function's
argument, the instrument symbol (the 5-day window and 5-minute
granularity are fixed constants, not arguments).  Streamlit keeps this
table for the whole process when no ttl is given — it is not cleared
when a script rerun (a refresh cycle) starts; only an explicit cache
clear or a source change resets it. -/
structure FetchCache (α : Type) where
  entries : List (String × α)

/-- The cache before any fetch has happened. -/
def emptyCache (α : Type) : FetchCache α := ⟨[]⟩

/-- Cache lookup by instrument symbol. -/
def cacheLookup {α : Type} (c : FetchCache α) (s : String) : Option α :=
  (c.entries.find? (fun p => p.1 = s)).map Prod.snd

/-- One call of the decorated `fetch_data`: a hit returns the stored
result without touching the remote source; a miss issues the remote
fetch and stores the result.  The `Nat` counts remote calls (0 or 1). -/
def cachedFetch {α : Type} (remote : String → α) (c : FetchCache α)
    (s : String) : α × FetchCache α × Nat :=
  match cacheLookup c s with
  | some v => (v, c, 0)
  | none => (remote s, ⟨(s, remote s) :: c.entries⟩, 1)

/-- One refresh cycle: the main loop's sequence of fetches, threading
the cache through and counting the remote calls issued. -/
def runCycle {α : Type} (remote : String → α) (c : FetchCache α)
    (stocks : List String) : FetchCache α × Nat :=
  stocks.foldl
    (fun acc s =>
      ((cachedFetch remote acc.1 s).2.1, acc.2 + (cachedFetch remote acc.1 s).2.2))
    (c, 0)

/-- Counterexample to C9 as stated: the cache is not invalidated at the
start of a new refresh cycle.  A first cycle over ["A"] issues one
remote call, and a second cycle over ["A"], starting from the cache the
first left behind, issues zero remote calls — under the claimed
per-cycle invalidation it would have to issue one again. -/
theorem C9_counterexample :
    (runCycle (fun _ => (0 : Nat)) (emptyCache Nat) ["A"]).2 = 1 ∧
      (runCycle (fun _ => (0 : Nat))
        (runCycle (fun _ => (0 : Nat)) (emptyCache Nat) ["A"]).1 ["A"]).2 = 0 :=
  ⟨rfl, rfl⟩

/-- Claim C9 amended: within one refresh cycle a repeated fetch of the
same identifier is served from the cache (same value, no remote call),
the cache is keyed solely by the identifier; but instead of being
invalidated at the start of a new cycle, the cache persists, so a later
cycle's fetch of an already-fetched identifier issues no remote call
either. -/
theorem C9_cache_memoizes_and_persists :
    (∀ (α : Type) (remote : String → α) (c : FetchCache α) (s : String) (v : α),
        cacheLookup c s = some v → cachedFetch remote c s = (v, c, 0))
  ∧ (∀ (α : Type) (remote : String → α) (c : FetchCache α) (s : String),
        (cachedFetch remote (cachedFetch remote c s).2.1 s).2.2 = 0 ∧
          (cachedFetch remote (cachedFetch remote c s).2.1 s).1 =
            (cachedFetch remote c s).1)
  ∧ (∀ (α : Type) (remote : String → α) (c : FetchCache α) (s : String),
        (runCycle remote (runCycle remote c [s]).1 [s]).2 = 0) := by
  refine ⟨?_, ?_, ?_⟩
  · intro α remote c s v h
    simp [cachedFetch, h]
  · intro α remote c s
    cases h : cacheLookup c s with
    | some v => simp [cachedFetch, h]
    | none =>
      have hl : cacheLookup ⟨(s, remote s) :: c.entries⟩ s = some (remote s) := by
        simp [cacheLookup, List.find?_cons_of_pos]
      simp [cachedFetch, h, hl]
  · intro α remote c s
    cases h : cacheLookup c s with
    | some v => simp [runCycle, cachedFetch, h]
    | none =>
      have hl : cacheLookup ⟨(s, remote s) :: c.entries⟩ s = some (remote s) := by
        simp [cacheLookup, List.find?_cons_of_pos]
      simp [runCycle, cachedFetch, h, hl]

/-- A concrete already-populated cache. -/
def exCache : FetchCache Nat := ⟨[("A", 5)]⟩

/-- Witness for the amended C9: a fetch of the cached symbol "A" returns
the stored value, leaves the cache unchanged and issues no remote
call. -/
theorem C9_witness :
    cachedFetch (fun _ => 0) exCache "A" = (5, exCache, 0) :=
  C9_cache_memoizes_and_persists.1 Nat (fun _ => 0) exCache "A" 5 rfl

end App13
